import Mathlib

/-!
Shallow embedding of the token-lifecycle and session-routing core of the
x-mcp-server (src/x-mcp-server/src/index.ts).

Conventions of the embedding:
* TypeScript optional fields become Option types; JavaScript truthiness of a
  string value (undefined or the empty string are falsy) is modelled by
  strTruthy / optStrTruthy.
* Epoch-millisecond instants and second lifetimes are Nat.  JavaScript
  computes Date.now() twice inside a refresh (once at the staleness check,
  once when building the new record, with an await in between), so the two
  instants are separate parameters (now, nowAfter).
* The process-wide mutable maps (tokenStores, the per-path files on disk,
  process.env, the oauth state files, the in-memory oauth2States map) are
  gathered in ServerState and threaded explicitly.  A file entry of
  some (some t) is a readable file parsing to t, some none is an unreadable
  or unparsable file, none is an absent file.  The RENDER_DISK_PATH base
  directory prefix is elided from paths: it is a constant prefix applied
  uniformly by getTokenFilePath in the source and never distinguishes paths.
* Network exchanges (refreshOAuth2Token, loginWithOAuth2) are modelled by an
  explicit outcome parameter, since their result is decided upstream.
* JSON.parse of a token record is a parameter (parse : String -> Option
  TokenStore): theorems quantify over every parse function, and witnesses
  instantiate it on concrete strings consistently with real JSON.parse
  (for example parse "\x7b\x7d" = some emptyTokenStore).
-/

namespace XMCP

/-- Truthiness of a JavaScript string: the empty string is falsy. -/
def strTruthy (s : String) : Bool := !(s == "")

/-- Truthiness of an optional JavaScript string (undefined or empty is falsy). -/
def optStrTruthy : Option String → Bool
  | some s => strTruthy s
  | none => false

/-- Embedding of the JavaScript expression a or-else b on optional strings
(the || operator: a falsy left operand selects the right operand). -/
def jsOrStr (a b : Option String) : Option String :=
  if optStrTruthy a then a else b

/-- Update of a total map at one key. -/
def mapSet {α : Type} (m : String → α) (k : String) (v : α) : String → α :=
  fun x => if x = k then v else m x

/-- TokenStore interface of the source: the OAuth2 credential state of one
tenant (all fields optional in the TypeScript interface). -/
structure TokenStore where
  accessToken : Option String
  refreshToken : Option String
  expiresIn : Option Nat
  tokenType : Option String
  expiresAt : Option Nat
deriving Repr, DecidableEq

/-- The empty token record, written as a bare object literal in the source. -/
def emptyTokenStore : TokenStore :=
  { accessToken := none, refreshToken := none, expiresIn := none,
    tokenType := none, expiresAt := none }

/-- The check !tokens.accessToken of the source (undefined or empty is falsy). -/
def hasAccessToken (t : TokenStore) : Bool := optStrTruthy t.accessToken

/-- The check !tokenStore.refreshToken of the source. -/
def hasRefreshToken (t : TokenStore) : Bool := optStrTruthy t.refreshToken

/-- User interface of the source: one registered tenant. -/
structure User where
  userId : String
  apiKey : String
  name : String
  xClientId : String
  xClientSecret : String
  callbackUrl : String
deriving Repr, DecidableEq

/-- Transient OAuth flow state persisted by the /authorize endpoint
(code verifier, anti-forgery state token, tenant id, creation instant). -/
structure OAuthStateData where
  codeVerifier : String
  state : String
  userId : String
  timestamp : Nat
deriving Repr, DecidableEq

/-- The process-wide mutable state of the server that the modelled
operations read and write. -/
structure ServerState where
  tokenStores : String → Option TokenStore
  files : String → Option (Option TokenStore)
  env : String → Option String
  stateFiles : String → Option OAuthStateData
  oauth2States : String → Option OAuthStateData

/-- Function getTokenFilePath of the source: the per-tenant token file name
(the constant base directory is elided).  A truthy userId selects the
per-tenant file, otherwise the single-user fallback. -/
def getTokenFilePath : Option String → String
  | some u => if strTruthy u then ".tokens-" ++ u ++ ".json" else ".tokens.json"
  | none => ".tokens.json"

/-- Upper-casing of a tenant id (JavaScript toUpperCase), modelled over the
character list of the string. -/
def toUpperModel (s : String) : String := String.mk (s.data.map Char.toUpper)

/-- Environment-variable name a tenant's tokens are loaded from
(X_OAUTH_TOKENS with an upper-cased tenant suffix in multi-user mode). -/
def envVarNameFor : Option String → String
  | some u => "X_OAUTH_TOKENS_" ++ toUpperModel u
  | none => "X_OAUTH_TOKENS"

/-- Whitespace test used by the trim model. -/
def isSpaceChar (c : Char) : Bool := c == ' ' || c == '\t' || c == '\n' || c == '\r'

/-- Whitespace trimming (JavaScript trim), modelled over the character list
of the string. -/
def trimModel (s : String) : String :=
  String.mk (((s.data.dropWhile isSpaceChar).reverse.dropWhile isSpaceChar).reverse)

/-- Whether a string starts with a double quote. -/
def startsWithQuote (s : String) : Bool :=
  match s.data with
  | c :: _ => c == '\"'
  | [] => false

/-- Whether a string ends with a double quote. -/
def endsWithQuote (s : String) : Bool :=
  match s.data.getLast? with
  | some c => c == '\"'
  | none => false

/-- Cleanup applied by loadTokens to an environment value before JSON.parse:
trim whitespace, then strip one pair of surrounding double quotes
(the slice from index 1 to the last-but-one index). -/
def cleanEnvValue (s : String) : String :=
  let trimmed := trimModel s
  if startsWithQuote trimmed && endsWithQuote trimmed then
    String.mk ((trimmed.data.drop 1).dropLast)
  else trimmed

/-- File half of loadTokens: a missing file (ENOENT) and any read or parse
error both degrade to the empty record inside the catch of the source. -/
def loadFromFile (files : String → Option (Option TokenStore)) (path : String) :
    TokenStore :=
  match files path with
  | some (some t) => t
  | some none => emptyTokenStore
  | none => emptyTokenStore

/-- Function loadTokens of the source: environment variable first (cleaned,
parsed, and validated to carry an access token; a parse failure falls
through to the file, a missing accessToken returns the empty record), then
the local file, then the empty record. -/
def loadTokens (parse : String → Option TokenStore) (env : String → Option String)
    (files : String → Option (Option TokenStore)) (userId : Option String) :
    TokenStore :=
  let path := getTokenFilePath userId
  match env (envVarNameFor userId) with
  | some envTokens =>
      if strTruthy envTokens then
        match parse (cleanEnvValue envTokens) with
        | some tokens =>
            if hasAccessToken tokens then tokens else emptyTokenStore
        | none => loadFromFile files path
      else loadFromFile files path
  | none => loadFromFile files path

/-- Outcome of the upstream refreshOAuth2Token exchange. -/
inductive RefreshResult where
  | success (accessToken : String) (refreshToken : Option String) (expiresIn : Nat)
  | failure
deriving Repr, DecidableEq

/-- Staleness look-ahead window of the refresh engine, in milliseconds. -/
def fiveMinutesMs : Nat := 5 * 60 * 1000

/-- Record built on a successful refresh: new access token, returned refresh
token with JavaScript or-else fallback to the prior one, absolute expiry
nowAfter + expiresIn seconds, Bearer type. -/
def refreshedRecord (old : TokenStore) (nowAfter : Nat) (accessToken : String)
    (refreshToken : Option String) (expiresIn : Nat) : TokenStore :=
  { accessToken := some accessToken
    refreshToken := jsOrStr refreshToken old.refreshToken
    expiresIn := some expiresIn
    tokenType := some "Bearer"
    expiresAt := some (nowAfter + expiresIn * 1000) }

/-- Function refreshAccessTokenIfNeeded of the source.  Returns the new
server state and the number of refresh exchanges attempted (0 or 1).
No refresh token, or an expiry beyond the five-minute window, is a no-op.
A successful exchange replaces the record and saves the token file; a failed
exchange clears the in-memory record and unlinks the token file (note the
source passes the raw userId string to getTokenFilePath here, so for the
default tenant this path is .tokens-default.json). -/
def refreshAccessTokenIfNeeded (now nowAfter : Nat) (exch : RefreshResult)
    (userId : String) (st : ServerState) : ServerState × Nat :=
  let tokenStore := (st.tokenStores userId).getD emptyTokenStore
  if hasRefreshToken tokenStore then
    if tokenStore.expiresAt.getD 0 > now + fiveMinutesMs then (st, 0)
    else
      match exch with
      | RefreshResult.success a rt ei =>
          let updated := refreshedRecord tokenStore nowAfter a rt ei
          ({ st with
              tokenStores := mapSet st.tokenStores userId (some updated)
              files := mapSet st.files (getTokenFilePath (some userId))
                (some (some updated)) }, 1)
      | RefreshResult.failure =>
          ({ st with
              tokenStores := mapSet st.tokenStores userId (some emptyTokenStore)
              files := mapSet st.files (getTokenFilePath (some userId)) none }, 1)
  else (st, 0)

/-- Argument the source passes to loadTokens and saveTokens: the userId
when it is not the literal default, otherwise undefined. -/
def loadUserArg (userId : String) : Option String :=
  if userId = "default" then none else some userId

/-- Result of the client factory. -/
inductive ClientOutcome where
  | client (accessToken : String)
  | notAuthorized
deriving Repr, DecidableEq

/-- Function getTwitterClient of the source: ensure the cache holds a record
with an access token (reloading through loadTokens otherwise), run the
refresh engine, re-read the possibly updated record, and either fail with
the no-access-token error or return a client bound to the access token.
The second component counts refresh exchanges attempted during the call. -/
def getTwitterClient (parse : String → Option TokenStore) (now nowAfter : Nat)
    (exch : RefreshResult) (userId : String) (st : ServerState) :
    ServerState × Nat × ClientOutcome :=
  let cachedOk : Bool :=
    match st.tokenStores userId with
    | some t => hasAccessToken t
    | none => false
  let st1 : ServerState :=
    if cachedOk then st
    else { st with tokenStores := (mapSet st.tokenStores userId
            (some (loadTokens parse st.env st.files (loadUserArg userId)))) }
  let r := refreshAccessTokenIfNeeded now nowAfter exch userId st1
  let final := (r.1.tokenStores userId).getD emptyTokenStore
  let outcome :=
    if hasAccessToken final then ClientOutcome.client (final.accessToken.getD "")
    else ClientOutcome.notAuthorized
  (r.1, r.2, outcome)

/-- OAuth client credentials (clientId and clientSecret of a TwitterApi
application client). -/
structure Creds where
  clientId : String
  clientSecret : String
deriving Repr, DecidableEq

/-- Function getOAuth2Client of the source: a given user's stored client
credentials, or the process-level environment credentials when no user is
given. -/
def getOAuth2Client (user : Option User) (envCreds : Creds) : Creds :=
  match user with
  | some u => { clientId := u.xClientId, clientSecret := u.xClientSecret }
  | none => envCreds

/-- Candidate oauth-state file paths probed by the /callback endpoint: the
single-user path, then one path per registered user in multi-user mode. -/
def callbackStatePaths (multiUser : Bool) (registry : List User) : List String :=
  ".oauth-state.json" ::
    (if multiUser then
      registry.map (fun u => ".oauth-state-" ++ u.userId ++ ".json")
    else [])

/-- Whether the state file at path p holds a flow whose state token is s. -/
def stateFileMatch (files : String → Option OAuthStateData) (s : String)
    (p : String) : Bool :=
  match files p with
  | some d => d.state == s
  | none => false

/-- The file-scanning loop of the /callback endpoint: first candidate path
whose readable state file matches the state token, with its data. -/
def findStateInFiles (files : String → Option OAuthStateData) (s : String) :
    List String → Option (String × OAuthStateData)
  | [] => none
  | p :: rest =>
      match files p with
      | some d =>
          if d.state = s then some (p, d) else findStateInFiles files s rest
      | none => findStateInFiles files s rest

/-- Where the /callback endpoint would find the flow for a state token:
state files first, then the in-memory oauth2States map. -/
def lookupFlow (multiUser : Bool) (registry : List User) (st : ServerState)
    (s : String) : Option OAuthStateData :=
  match findStateInFiles st.stateFiles s (callbackStatePaths multiUser registry) with
  | some pd => some pd.2
  | none => st.oauth2States s

/-- Number of in-memory pending flows stored under a state token (0 or 1). -/
def memFlowCount (st : ServerState) (s : String) : Nat :=
  match st.oauth2States s with
  | some _ => 1
  | none => 0

/-- Number of locations (candidate state files plus the in-memory map)
holding a pending flow for the state token s.  The spec invariant that a
state token is unique among concurrently pending flows says this is at most
one. -/
def flowLocations (multiUser : Bool) (registry : List User) (st : ServerState)
    (s : String) : Nat :=
  ((callbackStatePaths multiUser registry).filter
      (stateFileMatch st.stateFiles s)).length
    + memFlowCount st s

/-- Flow-expiry timeout of the /callback endpoint, in milliseconds. -/
def tenMinutesMs : Nat := 10 * 60 * 1000

/-- Outcome of the upstream loginWithOAuth2 authorization-code exchange. -/
inductive ExchangeResult where
  | success (accessToken : String) (refreshToken : Option String) (expiresIn : Nat)
  | failure (msg : String)
deriving Repr, DecidableEq

/-- Observable outcome of a /callback request. -/
inductive CallbackOutcome where
  | missingCode
  | invalidState
  | expiredFlow
  | stateMismatch
  | exchangeError (msg : String)
  | success (userId : String) (tokens : TokenStore)
deriving Repr, DecidableEq

/-- Tenant lookup of the /callback endpoint: the registry entry for the
flow's userId, or undefined for the default tenant. -/
def callbackResolveUser (registry : List User) (userId : String) : Option User :=
  if userId = "default" then none
  else registry.find? (fun u => u.userId == userId)

/-- Continuation of the /callback endpoint after the flow state was found
and consumed: the lazy expiry check (skipped for a falsy timestamp), the
anti-forgery state comparison, tenant and credential resolution, the code
exchange, and on success the wholesale store of the new token record.  The
third component is the credentials handed to the exchange (none when no
exchange was attempted). -/
def callbackAfterLookup (registry : List User) (envCreds : Creds)
    (now nowAfter : Nat) (exch : ExchangeResult) (state : String)
    (d : OAuthStateData) (st : ServerState) :
    ServerState × CallbackOutcome × Option Creds :=
  if d.timestamp ≠ 0 ∧ now - d.timestamp > tenMinutesMs then
    (st, CallbackOutcome.expiredFlow, none)
  else if state ≠ d.state then
    (st, CallbackOutcome.stateMismatch, none)
  else
    let userId := if strTruthy d.userId then d.userId else "default"
    let user := callbackResolveUser registry userId
    let creds := getOAuth2Client user envCreds
    match exch with
    | ExchangeResult.failure msg =>
        (st, CallbackOutcome.exchangeError msg, some creds)
    | ExchangeResult.success a rt ei =>
        let newTokens : TokenStore :=
          { accessToken := some a, refreshToken := rt, expiresIn := some ei,
            tokenType := some "Bearer", expiresAt := some (nowAfter + ei * 1000) }
        let st1 := { st with
          tokenStores := mapSet st.tokenStores userId (some newTokens)
          files := mapSet st.files (getTokenFilePath (loadUserArg userId))
            (some (some newTokens)) }
        (st1, CallbackOutcome.success userId newTokens, some creds)

/-- The /callback endpoint: reject a missing or non-truthy code, find the
pending flow by state token (files first, then the in-memory map), consume
it at the location where it was found, and continue with
callbackAfterLookup; an unfound state token is the invalid-state failure. -/
def callback (multiUser : Bool) (registry : List User) (envCreds : Creds)
    (now nowAfter : Nat) (exch : ExchangeResult) (code : Option String)
    (state : String) (st : ServerState) :
    ServerState × CallbackOutcome × Option Creds :=
  match code with
  | none => (st, CallbackOutcome.missingCode, none)
  | some c =>
      if c = "" then (st, CallbackOutcome.missingCode, none)
      else
        match findStateInFiles st.stateFiles state
            (callbackStatePaths multiUser registry) with
        | some (p, d) =>
            callbackAfterLookup registry envCreds now nowAfter exch state d
              { st with stateFiles := mapSet st.stateFiles p none }
        | none =>
            match st.oauth2States state with
            | some d =>
                callbackAfterLookup registry envCreds now nowAfter exch state d
                  { st with oauth2States := mapSet st.oauth2States state none }
            | none => (st, CallbackOutcome.invalidState, none)

/-- Resolution outcome of the /authorize endpoint's tenant lookup. -/
inductive AuthzResolution where
  | invalidApiKey
  | userNotFound
  | missingAuth
  | user (u : User)
  | defaultUser
deriving Repr, DecidableEq

/-- Function getUserByApiKey of the source: registry lookup by API key,
always undefined outside multi-user mode. -/
def getUserByApiKey (multiUser : Bool) (registry : List User) (apiKey : String) :
    Option User :=
  if multiUser then registry.find? (fun u => u.apiKey == apiKey) else none

/-- Tenant resolution of the /authorize endpoint: API key first (an unknown
key is rejected), then the userId parameter (an unknown id is a 404), else
a missing-authentication rejection; single-user mode uses the default
tenant. -/
def authorizeResolve (multiUser : Bool) (registry : List User)
    (apiKey userIdParam : Option String) : AuthzResolution :=
  if multiUser then
    if optStrTruthy apiKey then
      match getUserByApiKey multiUser registry (apiKey.getD "") with
      | some u => AuthzResolution.user u
      | none => AuthzResolution.invalidApiKey
    else if optStrTruthy userIdParam then
      match registry.find? (fun u => u.userId == userIdParam.getD "") with
      | some u => AuthzResolution.user u
      | none => AuthzResolution.userNotFound
    else AuthzResolution.missingAuth
  else AuthzResolution.defaultUser

/-- Resolution outcome of the /validate-token endpoint's tenant lookup. -/
inductive ValidateResolution where
  | invalidApiKey
  | missingAuth
  | resolved (userId : String)
deriving Repr, DecidableEq

/-- Tenant resolution of the /validate-token endpoint: an API key is checked
against the registry, but a bare userId parameter is accepted verbatim with
no registry lookup at all. -/
def validateTokenResolve (multiUser : Bool) (registry : List User)
    (apiKey userIdParam : Option String) : ValidateResolution :=
  if multiUser then
    if optStrTruthy apiKey then
      match getUserByApiKey multiUser registry (apiKey.getD "") with
      | some u => ValidateResolution.resolved u.userId
      | none => ValidateResolution.invalidApiKey
    else if optStrTruthy userIdParam then
      ValidateResolution.resolved (userIdParam.getD "")
    else ValidateResolution.missingAuth
  else ValidateResolution.resolved "default"

/-- Per-session bindings of the SSE layer: the transports map (membership of
a session id) and the sessionToUser map (session id to tenant id). -/
structure SessionBindings where
  transports : String → Bool
  sessionToUser : String → Option String

/-- The transport.onclose handler of the /sse endpoint: deletes the session
from both the transports map and the sessionToUser map. -/
def onTransportClose (sessionId : String) (st : SessionBindings) :
    SessionBindings :=
  { transports := fun x => if x = sessionId then false else st.transports x
    sessionToUser := mapSet st.sessionToUser sessionId none }

/-- The request close handler of the /sse endpoint (client disconnect):
deletes the session only from the transports map. -/
def onRequestClose (sessionId : String) (st : SessionBindings) :
    SessionBindings :=
  { st with transports := fun x => if x = sessionId then false else st.transports x }

/-- The request error handler of the /sse endpoint: logs only, removing
nothing. -/
def onRequestError (_sessionId : String) (st : SessionBindings) :
    SessionBindings := st

/-- The expression Math.min(Math.max(x, lo), hi) of the tool handlers. -/
def jsClamp (x lo hi : Rat) : Rat := min (max x lo) hi

/-- Value of max_results forwarded by the get_bookmarks handler. -/
def get_bookmarks_maxResults (arg : Option Rat) : Rat :=
  jsClamp (arg.getD 10) 5 100

/-- Value of max_results forwarded by the get_home_timeline handler. -/
def get_home_timeline_maxResults (arg : Option Rat) : Rat :=
  jsClamp (arg.getD 10) 5 100

/-- Value of max_results forwarded by the get_user_tweets handler. -/
def get_user_tweets_maxResults (arg : Option Rat) : Rat :=
  jsClamp (arg.getD 10) 5 100

/-- Value of max_results forwarded by the search_tweets handler. -/
def search_tweets_maxResults (arg : Option Rat) : Rat :=
  jsClamp (arg.getD 10) 10 100

/-! Concrete instances used to evaluate the model on explicit inputs. -/

/-- Server state with every map empty. -/
def emptyServerState : ServerState :=
  { tokenStores := fun _ => none, files := fun _ => none, env := fun _ => none,
    stateFiles := fun _ => none, oauth2States := fun _ => none }

/-- Parse function that accepts nothing (models JSON.parse on non-JSON input). -/
def parseNone : String → Option TokenStore := fun _ => none

/-- Session bindings holding exactly one live session, sess1, for alice. -/
def sess1Bindings : SessionBindings :=
  { transports := fun s => s == "sess1"
    sessionToUser := fun s => if s = "sess1" then some "alice" else none }

/-- Record with a fresh-looking access token but no refresh token. -/
def skipRec : TokenStore :=
  { accessToken := some "A1", refreshToken := none, expiresIn := none,
    tokenType := none, expiresAt := some 9999999 }

/-- State caching skipRec for alice. -/
def skipState : ServerState :=
  { emptyServerState with
      tokenStores := fun u => if u = "alice" then some skipRec else none }

/-- Record that is expired (expiresAt 0) and has no refresh token. -/
def c1Rec : TokenStore :=
  { accessToken := some "A1", refreshToken := none, expiresIn := none,
    tokenType := none, expiresAt := some 0 }

/-- State caching c1Rec for alice. -/
def c1State : ServerState :=
  { emptyServerState with
      tokenStores := fun u => if u = "alice" then some c1Rec else none }

/-- Record that is expired but renewable (refresh token R1). -/
def c1aRec : TokenStore :=
  { accessToken := some "A1", refreshToken := some "R1", expiresIn := none,
    tokenType := none, expiresAt := some 0 }

/-- State caching c1aRec for alice. -/
def c1aState : ServerState :=
  { emptyServerState with
      tokenStores := fun u => if u = "alice" then some c1aRec else none }

/-- Stale renewable record persisted in the alice environment variable. -/
def c2eRec : TokenStore :=
  { accessToken := some "A2", refreshToken := some "R2", expiresIn := none,
    tokenType := none, expiresAt := some 0 }

/-- Parse function consistent with JSON.parse on the serialized form of
c2eRec (the raw environment value is abbreviated ENVJSON). -/
def c2parse : String → Option TokenStore :=
  fun s => if s = "ENVJSON" then some c2eRec else none

/-- State caching the stale c1aRec for alice while the alice environment
variable holds a persisted copy of c2eRec. -/
def c2eState : ServerState :=
  { emptyServerState with
      tokenStores := fun u => if u = "alice" then some c1aRec else none
      env := fun n => if n = "X_OAUTH_TOKENS_ALICE" then some "ENVJSON" else none }

/-- Pending flow for the default tenant under state token S1, created at
instant 5. -/
def c3Flow : OAuthStateData :=
  { codeVerifier := "ver", state := "S1", userId := "default", timestamp := 5 }

/-- State holding c3Flow in the single-user oauth state file. -/
def c3State : ServerState :=
  { emptyServerState with
      stateFiles := fun p => if p = ".oauth-state.json" then some c3Flow else none }

/-- Pending flow created at instant 1000 (used for the expiry check). -/
def c4Flow : OAuthStateData :=
  { codeVerifier := "ver", state := "S1", userId := "default", timestamp := 1000 }

/-- State holding c4Flow in the in-memory oauth2States map. -/
def c4State : ServerState :=
  { emptyServerState with
      oauth2States := fun x => if x = "S1" then some c4Flow else none }

/-- Pending flow whose tenant id mallory is absent from the registry. -/
def c8Flow : OAuthStateData :=
  { codeVerifier := "ver", state := "S1", userId := "mallory", timestamp := 1000 }

/-- State holding c8Flow in the in-memory oauth2States map. -/
def c8State : ServerState :=
  { emptyServerState with
      oauth2States := fun x => if x = "S1" then some c8Flow else none }

/-- Process-level fallback credentials from the environment. -/
def envCredsC8 : Creds := { clientId := "ENVID", clientSecret := "ENVSECRET" }

/-- Parse function consistent with JSON.parse on the two-character input of
one opening and one closing curly brace, which yields the empty record. -/
def c9parse : String → Option TokenStore :=
  fun s => if s = "\x7b\x7d" then some emptyTokenStore else none

/-- Token record stored in the carol token file. -/
def c9fileRec : TokenStore :=
  { accessToken := some "FILETOKEN", refreshToken := none, expiresIn := none,
    tokenType := none, expiresAt := none }

/-- Environment holding, for carol, a value that parses but carries no
access token. -/
def c9env : String → Option String :=
  fun n => if n = "X_OAUTH_TOKENS_CAROL" then some "\x7b\x7d" else none

/-- File map holding a good token record in the carol token file. -/
def c9files : String → Option (Option TokenStore) :=
  fun p => if p = ".tokens-carol.json" then some (some c9fileRec) else none

/-! Theorems.  Helper lemmas come first, then one theorem per claim (with a
counterexample theorem where the claim fails on the code, and a witness
theorem where a claim theorem carries hypotheses). -/

/-- A found flow lies on the searched path list, its file holds the found
data, and the data carries the searched state token. -/
theorem findStateInFiles_some {files : String → Option OAuthStateData}
    {s : String} {paths : List String} {p : String} {d : OAuthStateData}
    (h : findStateInFiles files s paths = some (p, d)) :
    p ∈ paths ∧ files p = some d ∧ d.state = s := by
  induction paths with
  | nil => simp [findStateInFiles] at h
  | cons q rest ih =>
      cases hq : files q with
      | none =>
          simp only [findStateInFiles, hq] at h
          obtain ⟨h1, h2, h3⟩ := ih h
          exact ⟨List.mem_cons_of_mem _ h1, h2, h3⟩
      | some d0 =>
          simp only [findStateInFiles, hq] at h
          by_cases hds : d0.state = s
          · rw [if_pos hds] at h
            obtain ⟨rfl, rfl⟩ : q = p ∧ d0 = d := by
              simpa using h
            exact ⟨List.mem_cons_self _ _, hq, hds⟩
          · rw [if_neg hds] at h
            obtain ⟨h1, h2, h3⟩ := ih h
            exact ⟨List.mem_cons_of_mem _ h1, h2, h3⟩

/-- If no candidate file matches the state token, the scan finds nothing. -/
theorem findStateInFiles_none {files : String → Option OAuthStateData}
    {s : String} {paths : List String}
    (h : ∀ q ∈ paths, stateFileMatch files s q = false) :
    findStateInFiles files s paths = none := by
  induction paths with
  | nil => rfl
  | cons q rest ih =>
      have hq := h q (List.mem_cons_self q rest)
      cases hfq : files q with
      | none =>
          simp only [findStateInFiles, hfq]
          exact ih fun x hx => h x (List.mem_cons_of_mem _ hx)
      | some d0 =>
          simp only [stateFileMatch, hfq] at hq
          have hne : ¬ d0.state = s := by simpa using hq
          simp only [findStateInFiles, hfq, if_neg hne]
          exact ih fun x hx => h x (List.mem_cons_of_mem _ hx)

/-- The path of a found flow belongs to the filtered list of matching
candidate paths. -/
theorem found_mem_filter {files : String → Option OAuthStateData}
    {s : String} {paths : List String} {p : String} {d : OAuthStateData}
    (h : findStateInFiles files s paths = some (p, d)) :
    p ∈ paths.filter (stateFileMatch files s) := by
  obtain ⟨h1, h2, h3⟩ := findStateInFiles_some h
  refine List.mem_filter.mpr ⟨h1, ?_⟩
  simp [stateFileMatch, h2, h3]

/-- A filtered list of length at most one holds at most one element. -/
theorem filter_singleton_eq {α : Type} {l : List α} {f : α → Bool}
    (h : (l.filter f).length ≤ 1) {p q : α}
    (hp : p ∈ l.filter f) (hq : q ∈ l.filter f) : p = q := by
  cases hl : l.filter f with
  | nil => rw [hl] at hp; exact absurd hp (List.not_mem_nil p)
  | cons x xs =>
      rw [hl] at hp hq h
      cases xs with
      | nil =>
          rw [List.mem_singleton] at hp hq
          rw [hp, hq]
      | cons y ys => simp at h


/-- The branches of callbackAfterLookup leave the oauth flow storage (state
files and in-memory map) untouched: only token state changes. -/
theorem callbackAfterLookup_preserves (registry : List User) (envCreds : Creds)
    (now nowAfter : Nat) (exch : ExchangeResult) (state : String)
    (d : OAuthStateData) (st : ServerState) :
    ((callbackAfterLookup registry envCreds now nowAfter exch state d st).1).stateFiles
        = st.stateFiles ∧
    ((callbackAfterLookup registry envCreds now nowAfter exch state d st).1).oauth2States
        = st.oauth2States := by
  unfold callbackAfterLookup
  split
  · exact ⟨rfl, rfl⟩
  · split
    · exact ⟨rfl, rfl⟩
    · cases exch <;> exact ⟨rfl, rfl⟩

/-- A stale renewable record makes a successful refresh exchange store the
refreshed record in the cache and the token file and report one attempt. -/
theorem refresh_stale_success {now nowAfter : Nat} {userId : String}
    {st : ServerState} {rec : TokenStore} {a : String} {rt : Option String}
    {ei : Nat} (h : st.tokenStores userId = some rec)
    (hrt : hasRefreshToken rec = true)
    (hne : ¬ rec.expiresAt.getD 0 > now + fiveMinutesMs) :
    refreshAccessTokenIfNeeded now nowAfter (RefreshResult.success a rt ei)
        userId st
      = ({ st with
            tokenStores := mapSet st.tokenStores userId
              (some (refreshedRecord rec nowAfter a rt ei))
            files := mapSet st.files (getTokenFilePath (some userId))
              (some (some (refreshedRecord rec nowAfter a rt ei))) }, 1) := by
  simp only [refreshAccessTokenIfNeeded, h, Option.getD_some, hrt, if_true,
    if_neg hne]

/-- A stale renewable record makes a failed refresh exchange clear the cached
record, unlink the token file, and report one attempt. -/
theorem refresh_stale_failure {now nowAfter : Nat} {userId : String}
    {st : ServerState} {rec : TokenStore} (h : st.tokenStores userId = some rec)
    (hrt : hasRefreshToken rec = true)
    (hne : ¬ rec.expiresAt.getD 0 > now + fiveMinutesMs) :
    refreshAccessTokenIfNeeded now nowAfter RefreshResult.failure userId st
      = ({ st with
            tokenStores := mapSet st.tokenStores userId (some emptyTokenStore)
            files := mapSet st.files (getTokenFilePath (some userId)) none }, 1) := by
  simp only [refreshAccessTokenIfNeeded, h, Option.getD_some, hrt, if_true,
    if_neg hne]

/-- When the cached record already carries an access token, the client
factory skips the reload step and hands the refresh engine the unchanged
state. -/
theorem getTwitterClient_cached {parse : String → Option TokenStore}
    {now nowAfter : Nat} {exch : RefreshResult} {userId : String}
    {st : ServerState} {rec : TokenStore} (h : st.tokenStores userId = some rec)
    (hat : hasAccessToken rec = true) :
    getTwitterClient parse now nowAfter exch userId st
      = ((refreshAccessTokenIfNeeded now nowAfter exch userId st).1,
          (refreshAccessTokenIfNeeded now nowAfter exch userId st).2,
          if hasAccessToken
              (((refreshAccessTokenIfNeeded now nowAfter exch userId
                    st).1.tokenStores userId).getD emptyTokenStore) then
            ClientOutcome.client
              ((((refreshAccessTokenIfNeeded now nowAfter exch userId
                    st).1.tokenStores userId).getD
                  emptyTokenStore).accessToken.getD "")
          else ClientOutcome.notAuthorized) := by
  simp only [getTwitterClient, h, hat, if_true]

/-- C10: for get_bookmarks, get_home_timeline and get_user_tweets the
max_results value forwarded upstream is clamped into the closed range 5 to
100 (10 when omitted), and for search_tweets into 10 to 100, regardless of
the caller-supplied value. -/
theorem max_results_clamped :
    ∀ a : Option Rat,
      5 ≤ get_bookmarks_maxResults a ∧ get_bookmarks_maxResults a ≤ 100 ∧
      5 ≤ get_home_timeline_maxResults a ∧ get_home_timeline_maxResults a ≤ 100 ∧
      5 ≤ get_user_tweets_maxResults a ∧ get_user_tweets_maxResults a ≤ 100 ∧
      10 ≤ search_tweets_maxResults a ∧ search_tweets_maxResults a ≤ 100 ∧
      get_bookmarks_maxResults none = 10 ∧
      get_home_timeline_maxResults none = 10 ∧
      get_user_tweets_maxResults none = 10 ∧
      search_tweets_maxResults none = 10 := by
  intro a
  have hb : ∀ x : Rat, 5 ≤ jsClamp x 5 100 ∧ jsClamp x 5 100 ≤ 100 := by
    intro x
    exact ⟨le_min (le_max_right x 5) (by norm_num), min_le_right _ _⟩
  have hs : ∀ x : Rat, 10 ≤ jsClamp x 10 100 ∧ jsClamp x 10 100 ≤ 100 := by
    intro x
    exact ⟨le_min (le_max_right x 10) (by norm_num), min_le_right _ _⟩
  have hd : jsClamp 10 5 100 = 10 := by
    rw [jsClamp, max_eq_left (by norm_num : (5 : Rat) ≤ 10),
      min_eq_left (by norm_num : (10 : Rat) ≤ 100)]
  have hd2 : jsClamp 10 10 100 = 10 := by
    rw [jsClamp, max_eq_left (le_refl (10 : Rat)),
      min_eq_left (by norm_num : (10 : Rat) ≤ 100)]
  simp only [get_bookmarks_maxResults, get_home_timeline_maxResults,
    get_user_tweets_maxResults, search_tweets_maxResults, Option.getD_none]
  exact ⟨(hb _).1, (hb _).2, (hb _).1, (hb _).2, (hb _).1, (hb _).2,
    (hs _).1, (hs _).2, hd, hd, hd, hd2⟩

/-- C7 counterexample: after the request error handler runs for session
sess1, both the transport binding and the tenant binding are still present,
refuting the claim that a transport error removes both bindings. -/
theorem request_error_keeps_bindings_counterexample :
    (onRequestError "sess1" sess1Bindings).transports "sess1" = true ∧
    (onRequestError "sess1" sess1Bindings).sessionToUser "sess1" = some "alice" := by
  exact ⟨rfl, rfl⟩

/-- C7 amended: the transport onclose handler removes both the transport
binding and the tenant binding of the session; the request close handler
removes only the transport binding and leaves sessionToUser unchanged; the
request error handler removes neither binding. -/
theorem session_binding_cleanup :
    ∀ (st : SessionBindings) (sid : String),
      (onTransportClose sid st).transports sid = false ∧
      (onTransportClose sid st).sessionToUser sid = none ∧
      (onRequestClose sid st).transports sid = false ∧
      (onRequestClose sid st).sessionToUser sid = st.sessionToUser sid ∧
      onRequestError sid st = st := by
  intro st sid
  refine ⟨?_, ?_, ?_, rfl, rfl⟩ <;> simp [onTransportClose, onRequestClose, mapSet]

/-- C6: the refresh engine performs no exchange and leaves the whole server
state (token cache and persisted files) unchanged when the cached record has
no refresh token or its expiry instant is strictly beyond the five-minute
look-ahead window. -/
theorem refresh_skip_no_change :
    ∀ (now nowAfter : Nat) (exch : RefreshResult) (userId : String)
      (st : ServerState),
      (hasRefreshToken ((st.tokenStores userId).getD emptyTokenStore) = false ∨
        ((st.tokenStores userId).getD emptyTokenStore).expiresAt.getD 0
          > now + fiveMinutesMs) →
      refreshAccessTokenIfNeeded now nowAfter exch userId st = (st, 0) := by
  intro now nowAfter exch userId st h
  rcases h with h | h
  · simp [refreshAccessTokenIfNeeded, h]
  · cases hrt : hasRefreshToken ((st.tokenStores userId).getD emptyTokenStore) with
    | false => simp [refreshAccessTokenIfNeeded, hrt]
    | true => simp [refreshAccessTokenIfNeeded, hrt, h]

/-- C6 witness: a concrete skip at a record with no refresh token. -/
theorem refresh_skip_no_change_witness :
    refreshAccessTokenIfNeeded 0 0 RefreshResult.failure "alice" skipState
      = (skipState, 0) :=
  refresh_skip_no_change 0 0 RefreshResult.failure "alice" skipState
    (Or.inl (by decide))

/-- C5: a successful refresh exchange replaces the tenant record wholesale:
new access token, returned refresh token (prior one kept when none was
returned), expiry nowAfter plus the reported lifetime in seconds converted
to epoch milliseconds, Bearer type, and the new record is persisted to the
tenant token file. -/
theorem refresh_success_replaces_record :
    ∀ (now nowAfter : Nat) (userId : String) (st : ServerState)
      (rec : TokenStore) (a : String) (rt : Option String) (ei : Nat),
      st.tokenStores userId = some rec →
      hasRefreshToken rec = true →
      rec.expiresAt.getD 0 ≤ now + fiveMinutesMs →
      (refreshAccessTokenIfNeeded now nowAfter (RefreshResult.success a rt ei)
          userId st).1.tokenStores userId
          = some (refreshedRecord rec nowAfter a rt ei) ∧
      (refreshAccessTokenIfNeeded now nowAfter (RefreshResult.success a rt ei)
          userId st).1.files (getTokenFilePath (some userId))
          = some (some (refreshedRecord rec nowAfter a rt ei)) ∧
      (refreshAccessTokenIfNeeded now nowAfter (RefreshResult.success a rt ei)
          userId st).2 = 1 ∧
      (refreshedRecord rec nowAfter a rt ei).accessToken = some a ∧
      (refreshedRecord rec nowAfter a rt ei).expiresAt
          = some (nowAfter + ei * 1000) ∧
      (refreshedRecord rec nowAfter a rt ei).tokenType = some "Bearer" ∧
      (∀ rs, rt = some rs → rs ≠ "" →
        (refreshedRecord rec nowAfter a rt ei).refreshToken = some rs) ∧
      (rt = none →
        (refreshedRecord rec nowAfter a rt ei).refreshToken = rec.refreshToken) := by
  intro now nowAfter userId st rec a rt ei h hrt hexp
  have hne : ¬ rec.expiresAt.getD 0 > now + fiveMinutesMs := not_lt.mpr hexp
  refine ⟨?_, ?_, ?_, rfl, rfl, rfl, ?_, ?_⟩
  · simp [refreshAccessTokenIfNeeded, h, hrt, hne, mapSet]
  · simp [refreshAccessTokenIfNeeded, h, hrt, hne, mapSet]
  · simp [refreshAccessTokenIfNeeded, h, hrt, hne]
  · intro rs hrs hner
    subst hrs
    simp [refreshedRecord, jsOrStr, optStrTruthy, strTruthy, hner]
  · intro hn
    subst hn
    simp [refreshedRecord, jsOrStr, optStrTruthy]

/-- C5 witness: a concrete successful refresh for alice where the upstream
returned no rotated refresh token. -/
theorem refresh_success_replaces_record_witness :
    (refreshAccessTokenIfNeeded 2000 5000 (RefreshResult.success "A2" none 7200)
        "alice" c1aState).1.tokenStores "alice"
      = some (refreshedRecord c1aRec 5000 "A2" none 7200) ∧
    (refreshedRecord c1aRec 5000 "A2" none 7200).refreshToken = c1aRec.refreshToken :=
  ⟨(refresh_success_replaces_record 2000 5000 "alice" c1aState c1aRec "A2" none
      7200 (by decide) (by decide) (by decide)).1,
    (refresh_success_replaces_record 2000 5000 "alice" c1aState c1aRec "A2" none
      7200 (by decide) (by decide) (by decide)).2.2.2.2.2.2.2 rfl⟩

/-- C9 counterexample: for carol the environment value parses but lacks an
access token, and the token file holds a good record; loadTokens returns the
empty record instead of falling through to the file read, refuting the
claimed fall-through for the parses-but-lacks-access-token case. -/
theorem loadTokens_missing_accessToken_counterexample :
    loadTokens c9parse c9env c9files (some "carol") = emptyTokenStore ∧
    loadFromFile c9files (getTokenFilePath (some "carol")) = c9fileRec ∧
    c9fileRec ≠ emptyTokenStore := by
  refine ⟨?_, ?_, ?_⟩ <;> decide

/-- C9 amended: loadTokens is total and follows the lookup order: the
tenant-derived environment value is consulted first and unwrapped via
cleanEnvValue before parsing; an absent or malformed value falls through to
the tenant-derived file read; a value that parses but lacks an access token
makes loadTokens return the empty record immediately, without consulting the
file; a value that parses with an access token is returned as is; an absent
file yields the empty record rather than an error. -/
theorem loadTokens_lookup_order :
    ∀ (parse : String → Option TokenStore) (env : String → Option String)
      (files : String → Option (Option TokenStore)) (userId : Option String),
      (env (envVarNameFor userId) = none →
        loadTokens parse env files userId
          = loadFromFile files (getTokenFilePath userId)) ∧
      (∀ v, env (envVarNameFor userId) = some v → strTruthy v = true →
        parse (cleanEnvValue v) = none →
        loadTokens parse env files userId
          = loadFromFile files (getTokenFilePath userId)) ∧
      (∀ v t, env (envVarNameFor userId) = some v → strTruthy v = true →
        parse (cleanEnvValue v) = some t → hasAccessToken t = true →
        loadTokens parse env files userId = t) ∧
      (∀ v t, env (envVarNameFor userId) = some v → strTruthy v = true →
        parse (cleanEnvValue v) = some t → hasAccessToken t = false →
        loadTokens parse env files userId = emptyTokenStore) ∧
      (files (getTokenFilePath userId) = none →
        loadFromFile files (getTokenFilePath userId) = emptyTokenStore) := by
  intro parse env files userId
  refine ⟨?_, ?_, ?_, ?_, ?_⟩
  · intro h
    simp [loadTokens, h]
  · intro v hv htr hp
    simp [loadTokens, hv, htr, hp]
  · intro v t hv htr hp hat
    simp [loadTokens, hv, htr, hp, hat]
  · intro v t hv htr hp hat
    simp [loadTokens, hv, htr, hp, hat]
  · intro h
    simp [loadFromFile, h]

/-- C9 witness: with no environment value and no file, load falls through to
the file read and returns the empty record. -/
theorem loadTokens_lookup_order_witness :
    loadTokens parseNone (fun _ => none) (fun _ => none) (some "carol")
      = loadFromFile (fun _ => none) (getTokenFilePath (some "carol")) ∧
    loadFromFile (fun _ => none) (getTokenFilePath (some "carol"))
      = emptyTokenStore :=
  ⟨(loadTokens_lookup_order parseNone (fun _ => none) (fun _ => none)
      (some "carol")).1 rfl,
    (loadTokens_lookup_order parseNone (fun _ => none) (fun _ => none)
      (some "carol")).2.2.2.2 rfl⟩

/-- C1 counterexample: alice's cached record is expired (expiry 0, far below
now plus five minutes) but has no refresh token; getTwitterClient performs
zero refresh exchanges and returns a client built from the stale token A1,
refuting the claim that such a call triggers exactly one refresh exchange
and uses a post-refresh token. -/
theorem getTwitterClient_no_refresh_token_counterexample :
    c1Rec.expiresAt.getD 0 ≤ 1000000 + fiveMinutesMs ∧
    (getTwitterClient parseNone 1000000 1000000 RefreshResult.failure "alice"
        c1State).2.1 = 0 ∧
    (getTwitterClient parseNone 1000000 1000000 RefreshResult.failure "alice"
        c1State).2.2 = ClientOutcome.client "A1" := by
  refine ⟨?_, ?_, ?_⟩ <;> decide

/-- C1 amended: for a tenant whose cached record holds an access token and a
refresh token and whose expiry instant is at most now plus five minutes,
getTwitterClient performs exactly one refresh exchange, and when that
exchange succeeds with a nonempty access token the returned client is
constructed from the post-refresh access token. -/
theorem getTwitterClient_stale_refreshes_once :
    ∀ (parse : String → Option TokenStore) (now nowAfter : Nat)
      (exch : RefreshResult) (userId : String) (st : ServerState)
      (rec : TokenStore),
      st.tokenStores userId = some rec →
      hasAccessToken rec = true →
      hasRefreshToken rec = true →
      rec.expiresAt.getD 0 ≤ now + fiveMinutesMs →
      (getTwitterClient parse now nowAfter exch userId st).2.1 = 1 ∧
      (∀ a rt ei, exch = RefreshResult.success a rt ei → a ≠ "" →
        (getTwitterClient parse now nowAfter exch userId st).2.2
          = ClientOutcome.client a) := by
  intro parse now nowAfter exch userId st rec h hat hrt hexp
  have hne : ¬ rec.expiresAt.getD 0 > now + fiveMinutesMs := not_lt.mpr hexp
  rw [getTwitterClient_cached h hat]
  constructor
  · cases exch with
    | success a rt ei => rw [refresh_stale_success h hrt hne]
    | failure => rw [refresh_stale_failure h hrt hne]
  · intro a rt ei he ha
    subst he
    rw [refresh_stale_success h hrt hne]
    have hupd : mapSet st.tokenStores userId
        (some (refreshedRecord rec nowAfter a rt ei)) userId
        = some (refreshedRecord rec nowAfter a rt ei) := by
      simp [mapSet]
    simp only [hupd, Option.getD_some]
    have hat2 : hasAccessToken (refreshedRecord rec nowAfter a rt ei) = true := by
      simp [refreshedRecord, hasAccessToken, optStrTruthy, strTruthy, ha]
    simp only [hat2, if_true, eq_self_iff_true]
    have hacc : (refreshedRecord rec nowAfter a rt ei).accessToken.getD "" = a := by
      simp [refreshedRecord]
    simp [hacc]

/-- C1 witness: alice's stale renewable record is refreshed exactly once and
the returned client carries the fresh token A2. -/
theorem getTwitterClient_stale_refreshes_once_witness :
    (getTwitterClient parseNone 10 20 (RefreshResult.success "A2" (some "R1") 7200)
        "alice" c1aState).2.1 = 1 ∧
    (getTwitterClient parseNone 10 20 (RefreshResult.success "A2" (some "R1") 7200)
        "alice" c1aState).2.2 = ClientOutcome.client "A2" :=
  ⟨(getTwitterClient_stale_refreshes_once parseNone 10 20
      (RefreshResult.success "A2" (some "R1") 7200) "alice" c1aState c1aRec
      (by decide) (by decide) (by decide) (by decide)).1,
    (getTwitterClient_stale_refreshes_once parseNone 10 20
      (RefreshResult.success "A2" (some "R1") 7200) "alice" c1aState c1aRec
      (by decide) (by decide) (by decide) (by decide)).2 "A2" (some "R1") 7200
      rfl (by decide)⟩

/-- An empty cached record makes the client factory reload, and when the
reload also yields the empty record the call performs no refresh exchange
and fails with the no-access-token error. -/
theorem getTwitterClient_reload_empty {parse : String → Option TokenStore}
    {now nowAfter : Nat} {exch : RefreshResult} {userId : String}
    {st : ServerState}
    (hcache : st.tokenStores userId = some emptyTokenStore)
    (hload : loadTokens parse st.env st.files (loadUserArg userId)
      = emptyTokenStore) :
    getTwitterClient parse now nowAfter exch userId st
      = ({ st with
            tokenStores := mapSet st.tokenStores userId (some emptyTokenStore) },
          0, ClientOutcome.notAuthorized) := by
  have hfalse : hasAccessToken emptyTokenStore = false := rfl
  have hrt : hasRefreshToken emptyTokenStore = false := rfl
  simp only [getTwitterClient, hcache, hfalse, Bool.false_eq_true, if_false,
    hload]
  simp [refreshAccessTokenIfNeeded, mapSet, hrt, hfalse]

/-- C2 amended: when the refresh exchange for a stale renewable record fails
with the upstream invalid-grant error, the tenant's in-memory record becomes
empty and the tenant-derived local token file is deleted (the
environment-variable copy, if any, is untouched); for a non-default tenant
with no environment-variable token copy, a subsequent getTwitterClient call
fails with the no-access-token error without attempting another refresh
exchange. -/
theorem refresh_failure_quarantine :
    ∀ (parse : String → Option TokenStore) (now nowAfter now2 nowAfter2 : Nat)
      (exch2 : RefreshResult) (userId : String) (st : ServerState)
      (rec : TokenStore),
      st.tokenStores userId = some rec →
      hasRefreshToken rec = true →
      rec.expiresAt.getD 0 ≤ now + fiveMinutesMs →
      st.env (envVarNameFor (some userId)) = none →
      userId ≠ "default" →
      (refreshAccessTokenIfNeeded now nowAfter RefreshResult.failure userId
          st).1.tokenStores userId = some emptyTokenStore ∧
      (refreshAccessTokenIfNeeded now nowAfter RefreshResult.failure userId
          st).1.files (getTokenFilePath (some userId)) = none ∧
      (getTwitterClient parse now2 nowAfter2 exch2 userId
          (refreshAccessTokenIfNeeded now nowAfter RefreshResult.failure userId
            st).1).2.1 = 0 ∧
      (getTwitterClient parse now2 nowAfter2 exch2 userId
          (refreshAccessTokenIfNeeded now nowAfter RefreshResult.failure userId
            st).1).2.2 = ClientOutcome.notAuthorized := by
  intro parse now nowAfter now2 nowAfter2 exch2 userId st rec h hrt hexp henv hdef
  have hne : ¬ rec.expiresAt.getD 0 > now + fiveMinutesMs := not_lt.mpr hexp
  rw [refresh_stale_failure h hrt hne]
  have hcache : ({ st with
      tokenStores := mapSet st.tokenStores userId (some emptyTokenStore)
      files := mapSet st.files (getTokenFilePath (some userId)) none } :
      ServerState).tokenStores userId = some emptyTokenStore := by
    simp [mapSet]
  have harg : loadUserArg userId = some userId := by
    simp [loadUserArg, hdef]
  have hload : loadTokens parse
      ({ st with
          tokenStores := mapSet st.tokenStores userId (some emptyTokenStore)
          files := mapSet st.files (getTokenFilePath (some userId)) none } :
          ServerState).env
      ({ st with
          tokenStores := mapSet st.tokenStores userId (some emptyTokenStore)
          files := mapSet st.files (getTokenFilePath (some userId)) none } :
          ServerState).files
      (loadUserArg userId) = emptyTokenStore := by
    rw [harg]
    simp [loadTokens, henv, loadFromFile, mapSet]
  rw [getTwitterClient_reload_empty hcache hload]
  refine ⟨by simp [mapSet], by simp [mapSet], rfl, rfl⟩

/-- C2 witness: a concrete invalid-grant refresh failure for alice followed
by a getTwitterClient call that fails with the no-access-token error without
a second refresh exchange. -/
theorem refresh_failure_quarantine_witness :
    (refreshAccessTokenIfNeeded 5 6 RefreshResult.failure "alice"
        c1aState).1.tokenStores "alice" = some emptyTokenStore ∧
    (refreshAccessTokenIfNeeded 5 6 RefreshResult.failure "alice"
        c1aState).1.files (getTokenFilePath (some "alice")) = none ∧
    (getTwitterClient parseNone 7 8 RefreshResult.failure "alice"
        (refreshAccessTokenIfNeeded 5 6 RefreshResult.failure "alice"
          c1aState).1).2.1 = 0 ∧
    (getTwitterClient parseNone 7 8 RefreshResult.failure "alice"
        (refreshAccessTokenIfNeeded 5 6 RefreshResult.failure "alice"
          c1aState).1).2.2 = ClientOutcome.notAuthorized :=
  refresh_failure_quarantine parseNone 5 6 7 8 RefreshResult.failure "alice"
    c1aState c1aRec (by decide) (by decide) (by decide) (by decide) (by decide)

/-- C2 counterexample: the refresh failure leaves the environment-variable
copy of alice's tokens in place, so the subsequent getTwitterClient call
reloads it and attempts another refresh exchange (count 1) and even returns
a client, instead of failing with the no-access-token error without another
refresh. -/
theorem refresh_failure_env_copy_counterexample :
    (refreshAccessTokenIfNeeded 5 6 RefreshResult.failure "alice"
        c2eState).1.env "X_OAUTH_TOKENS_ALICE" = some "ENVJSON" ∧
    (getTwitterClient c2parse 10 11 (RefreshResult.success "A3" none 7200)
        "alice" (refreshAccessTokenIfNeeded 5 6 RefreshResult.failure "alice"
          c2eState).1).2.1 = 1 ∧
    (getTwitterClient c2parse 10 11 (RefreshResult.success "A3" none 7200)
        "alice" (refreshAccessTokenIfNeeded 5 6 RefreshResult.failure "alice"
          c2eState).1).2.2 = ClientOutcome.client "A3" := by
  refine ⟨?_, ?_, ?_⟩ <;> decide

/-- C4: a callback carrying a truthy code and a state token whose pending
flow is found but is older than ten minutes fails with the expired-flow
error and hands no credentials to the token exchange (the exchange is never
attempted). -/
theorem callback_expired_flow_no_exchange :
    ∀ (multiUser : Bool) (registry : List User) (envCreds : Creds)
      (now nowAfter : Nat) (exch : ExchangeResult) (c s : String)
      (st : ServerState) (d : OAuthStateData),
      c ≠ "" →
      lookupFlow multiUser registry st s = some d →
      d.timestamp ≠ 0 →
      now - d.timestamp > tenMinutesMs →
      (callback multiUser registry envCreds now nowAfter exch (some c) s
          st).2.1 = CallbackOutcome.expiredFlow ∧
      (callback multiUser registry envCreds now nowAfter exch (some c) s
          st).2.2 = none := by
  intro multiUser registry envCreds now nowAfter exch c s st d hc hlk ht hage
  have hcond : d.timestamp ≠ 0 ∧ now - d.timestamp > tenMinutesMs := ⟨ht, hage⟩
  cases hf : findStateInFiles st.stateFiles s (callbackStatePaths multiUser registry) with
  | some pd =>
      obtain ⟨p, d0⟩ := pd
      simp only [lookupFlow, hf, Option.some.injEq] at hlk
      subst hlk
      simp only [callback, if_neg hc, hf]
      simp only [callbackAfterLookup, if_pos hcond]
      exact ⟨trivial, trivial⟩
  | none =>
      simp only [lookupFlow, hf] at hlk
      simp only [callback, if_neg hc, hf, hlk]
      simp only [callbackAfterLookup, if_pos hcond]
      exact ⟨trivial, trivial⟩

/-- C4 witness: a concrete flow created at instant 1000 and presented at
instant 700000 (age well beyond ten minutes) fails with the expired-flow
error and no exchange. -/
theorem callback_expired_flow_no_exchange_witness :
    (callback false [] envCredsC8 700000 700001
        (ExchangeResult.success "AT" none 10) (some "code123") "S1"
        c4State).2.1 = CallbackOutcome.expiredFlow ∧
    (callback false [] envCredsC8 700000 700001
        (ExchangeResult.success "AT" none 10) (some "code123") "S1"
        c4State).2.2 = none :=
  callback_expired_flow_no_exchange false [] envCredsC8 700000 700001
    (ExchangeResult.success "AT" none 10) "code123" "S1" c4State c4Flow
    (by decide) (by decide) (by decide) (by decide)

/-- C8 counterexample: a callback whose pending flow names the tenant
mallory, absent from the (empty) registry, silently resolves to the
process-level environment credentials and completes the exchange with them,
instead of failing with a tenant-not-found error. -/
theorem callback_unknown_tenant_fallback_counterexample :
    (callback true [] envCredsC8 2000 3000
        (ExchangeResult.success "AT" none 7200) (some "code123") "S1"
        c8State).2.2 = some envCredsC8 ∧
    (callback true [] envCredsC8 2000 3000
        (ExchangeResult.success "AT" none 7200) (some "code123") "S1"
        c8State).2.1
      = CallbackOutcome.success "mallory"
          { accessToken := some "AT", refreshToken := none,
            expiresIn := some 7200, tokenType := some "Bearer",
            expiresAt := some (3000 + 7200 * 1000) } := by
  refine ⟨?_, ?_⟩ <;> decide

/-- C8 amended: the /authorize endpoint fails with a user-not-found response
for a userId absent from the registry, but the /callback endpoint resolves
an absent tenant id to the process-level environment credentials, and the
/validate-token endpoint accepts a userId parameter with no registry check
at all. -/
theorem unknown_tenant_resolution :
    ∀ (registry : List User) (uid : String) (envCreds : Creds),
      uid ≠ "" →
      registry.find? (fun u => u.userId == uid) = none →
      authorizeResolve true registry none (some uid)
          = AuthzResolution.userNotFound ∧
      getOAuth2Client (callbackResolveUser registry uid) envCreds = envCreds ∧
      validateTokenResolve true registry none (some uid)
          = ValidateResolution.resolved uid := by
  intro registry uid envCreds hne hfind
  refine ⟨?_, ?_, ?_⟩
  · simp [authorizeResolve, optStrTruthy, strTruthy, hne, hfind]
  · rw [callbackResolveUser]
    by_cases hd : uid = "default"
    · simp [hd, getOAuth2Client]
    · simp [hd, hfind, getOAuth2Client]
  · simp [validateTokenResolve, optStrTruthy, strTruthy, hne]

/-- C8 witness: the userId mallory, absent from an empty registry, is
rejected by /authorize, falls back to environment credentials in /callback,
and passes unchecked through /validate-token. -/
theorem unknown_tenant_resolution_witness :
    authorizeResolve true [] none (some "mallory")
        = AuthzResolution.userNotFound ∧
    getOAuth2Client (callbackResolveUser [] "mallory") envCredsC8 = envCredsC8 ∧
    validateTokenResolve true [] none (some "mallory")
        = ValidateResolution.resolved "mallory" :=
  unknown_tenant_resolution [] "mallory" envCredsC8 (by decide) rfl

/-- C3: a pending authorization flow is single-use.  Under the spec
invariant that a state token is pending in at most one location, a first
callback call that found and consumed the flow (its outcome is not the
invalid-state error) makes any second callback presenting the same state
token fail with the invalid-state error, even when the first call
succeeded. -/
theorem callback_state_single_use :
    ∀ (multiUser : Bool) (registry : List User) (envCreds : Creds)
      (n1 na1 n2 na2 : Nat) (e1 e2 : ExchangeResult) (c s : String)
      (st : ServerState),
      c ≠ "" →
      flowLocations multiUser registry st s ≤ 1 →
      (callback multiUser registry envCreds n1 na1 e1 (some c) s st).2.1
          ≠ CallbackOutcome.invalidState →
      (callback multiUser registry envCreds n2 na2 e2 (some c) s
          (callback multiUser registry envCreds n1 na1 e1 (some c) s st).1).2.1
        = CallbackOutcome.invalidState := by
  intro multiUser registry envCreds n1 na1 n2 na2 e1 e2 c s st hc huniq hfound
  simp only [callback, if_neg hc] at hfound ⊢
  cases hf : findStateInFiles st.stateFiles s (callbackStatePaths multiUser registry) with
  | some pd =>
      obtain ⟨p, d⟩ := pd
      simp only [hf] at hfound ⊢
      have hpres := callbackAfterLookup_preserves registry envCreds n1 na1 e1 s d
        { st with stateFiles := mapSet st.stateFiles p none }
      have hpf : p ∈ (callbackStatePaths multiUser registry).filter
          (stateFileMatch st.stateFiles s) := found_mem_filter hf
      have hlen : 0 < ((callbackStatePaths multiUser registry).filter
          (stateFileMatch st.stateFiles s)).length := List.length_pos_of_mem hpf
      have hmemnone : st.oauth2States s = none := by
        cases hm : st.oauth2States s with
        | none => rfl
        | some d2 =>
            exfalso
            have hone : memFlowCount st s = 1 := by simp [memFlowCount, hm]
            unfold flowLocations at huniq
            omega
      have hfind2 : findStateInFiles (mapSet st.stateFiles p none) s
          (callbackStatePaths multiUser registry) = none := by
        apply findStateInFiles_none
        intro q hqmem
        by_cases hqp : q = p
        · subst hqp
          simp [stateFileMatch, mapSet]
        · cases hmq : stateFileMatch (mapSet st.stateFiles p none) s q with
          | false => rfl
          | true =>
              exfalso
              have heq : mapSet st.stateFiles p none q = st.stateFiles q := by
                simp [mapSet, hqp]
              have hmq2 : stateFileMatch st.stateFiles s q = true := by
                unfold stateFileMatch at hmq ⊢
                rw [heq] at hmq
                exact hmq
              have hqf : q ∈ (callbackStatePaths multiUser registry).filter
                  (stateFileMatch st.stateFiles s) :=
                List.mem_filter.mpr ⟨hqmem, hmq2⟩
              have hfl : ((callbackStatePaths multiUser registry).filter
                  (stateFileMatch st.stateFiles s)).length ≤ 1 := by
                unfold flowLocations at huniq
                omega
              exact hqp (filter_singleton_eq hfl hqf hpf)
      simp only [hpres.1, hpres.2, hfind2, hmemnone]
  | none =>
      cases hm : st.oauth2States s with
      | none =>
          simp only [hf, hm] at hfound
          exact absurd rfl hfound
      | some d =>
          simp only [hf, hm] at hfound ⊢
          have hpres := callbackAfterLookup_preserves registry envCreds n1 na1 e1 s d
            { st with oauth2States := mapSet st.oauth2States s none }
          have hmem2 : mapSet st.oauth2States s none s = none := by
            simp [mapSet]
          simp only [hpres.1, hpres.2, hf, hmem2]

/-- C3 witness: a concrete flow for S1 consumed by a first successful
callback; the second callback with the same state token fails with the
invalid-state error. -/
theorem callback_state_single_use_witness :
    (callback false [] envCredsC8 6 7 (ExchangeResult.success "AT" (some "RT") 7200)
        (some "code123") "S1"
        (callback false [] envCredsC8 6 7
          (ExchangeResult.success "AT" (some "RT") 7200) (some "code123") "S1"
          c3State).1).2.1
      = CallbackOutcome.invalidState :=
  callback_state_single_use false [] envCredsC8 6 7 6 7
    (ExchangeResult.success "AT" (some "RT") 7200)
    (ExchangeResult.success "AT" (some "RT") 7200) "code123" "S1" c3State
    (by decide) (by decide) (by decide)

end XMCP
